import Mathlib

/-!
Verification of the profile backend server (Express + Mongoose variants).

The repository consists of near-duplicate HTTP backends.  The state the
handlers mutate lives entirely in the document store (MongoDB); we model it
as a `DB` record: a map of named counters plus the persisted record
collections.  Every handler is a function from its request data (and the
outcome of the external upload collaborator) and the store state to a
response and a new store state.  The single atomic operation,
`getNextSequenceValue` (a `findOneAndUpdate` with `$inc` and `upsert`), is
modelled as one indivisible step on the state.
-/

namespace ProfileServer

/-- A blog document (`blogSchema` in `src/server.js`): `blog_id` is a Number,
the title and description come from `req.body` and may be absent. -/
structure Blog where
  blog_id : Int
  blog_title : Option String
  blog_description : Option String
  blog_image : String
deriving DecidableEq, Repr

/-- A carousel image document (`ImageSchema` in `src/server.js`). -/
structure Image where
  imageUrl : String
  link : Option String
deriving DecidableEq, Repr

/-- An event document (`eventSchema` in `src/server.js`); the date is kept as
the raw request string. -/
structure Event where
  event_date : String
  event_image : String
deriving DecidableEq, Repr

/-- A song document (`SongSchema` in the second variant); all four fields are
`required: true` in the schema. -/
structure Song where
  image : String
  title : String
  purchaseLink : String
  streamLink : String
deriving DecidableEq, Repr

/-- The document-store state: the `Counter` collection (`_id` is the sequence
name, a missing document means the counter was never created) and the record
collections the handlers append to. -/
structure DB where
  counters : String → Option Int
  blogs : List Blog
  images : List Image
  events : List Event
  songs : List Song

/-- The store with no counter documents and no records. -/
def emptyDB : DB := ⟨fun _ => none, [], [], [], []⟩

/-- The stored value of a counter, treating absence as 0 (the schema default
for `sequence_value`). -/
def counterVal (db : DB) (name : String) : Int :=
  (db.counters name).getD 0

/-- `getNextSequenceValue` from `src/server.js` lines 96-103: one atomic
`Counter.findOneAndUpdate({_id: name}, {$inc: {sequence_value: 1}},
{new: true, upsert: true})`.  It reads the stored value (0 if the document is
absent), increments it by one, persists it (creating the document if needed)
and returns the new value, all as a single indivisible step. -/
def getNextSequenceValue (sequenceName : String) (db : DB) : Int × DB :=
  let newVal := counterVal db sequenceName + 1
  (newVal,
    { db with
      counters := fun n => if n = sequenceName then some newVal else db.counters n })

/-- JSON (or default) response bodies produced by the handlers. -/
inductive Body where
  | msg (s : String)
  | err (s : String)
  | blogRec (b : Blog)
  | imageRec (i : Image)
  | eventRec (e : Event)
  | songRec (message : String) (s : Song)
  | defaultErrorPage
deriving DecidableEq, Repr

/-- An HTTP response: status code and body. -/
structure Response where
  status : Nat
  body : Body
deriving DecidableEq, Repr

/-- The state of the multipart file part of a request once the multer
middleware has run: the request carried no file part, or the middleware
uploaded it to Cloudinary and set `req.file.path` to the returned URL, or the
upload failed (in which case multer errors and the route handler is never
invoked; Express's default error handler answers 500). -/
inductive FilePart where
  | missing
  | uploaded (path : String)
  | failed
deriving DecidableEq, Repr

/-- `POST /api/carousel` (`src/server.js` lines 41-66).  The upload happens
inside the handler: no file gives 400; a Cloudinary error in the callback
gives 500 and nothing is saved; on success the image document is saved and
answered with `res.json(image)` (no explicit status, hence 200). -/
def postCarousel (file : Option Unit) (link : Option String)
    (uploadRes : Except Unit String) (db : DB) : Response × DB :=
  match file with
  | none => (⟨400, .msg "No file uploaded"⟩, db)
  | some _ =>
    match uploadRes with
    | .error _ => (⟨500, .msg "Upload failed"⟩, db)
    | .ok url =>
      let image : Image := ⟨url, link⟩
      (⟨200, .imageRec image⟩, { db with images := db.images ++ [image] })

/-- `POST /api/blogs` (`src/server.js` lines 117-137).  The Cloudinary upload
is performed by the `uploadCloudinary.single` middleware before the handler
runs; a middleware failure means the handler never executes.  In the handler:
no file gives 400; otherwise the next `blog_id` is allocated, the blog is
built and saved, and answered 201.  A failing save is caught and answered 500
(the counter increment is not rolled back). -/
def postBlogs (fp : FilePart) (blog_title blog_description : Option String)
    (saveOk : Bool) (db : DB) : Response × DB :=
  match fp with
  | .failed => (⟨500, .defaultErrorPage⟩, db)
  | .missing => (⟨400, .msg "No image uploaded"⟩, db)
  | .uploaded path =>
    let r := getNextSequenceValue "blog_id" db
    let blog : Blog := ⟨r.1, blog_title, blog_description, path⟩
    if saveOk then
      (⟨201, .blogRec blog⟩, { r.2 with blogs := r.2.blogs ++ [blog] })
    else
      (⟨500, .err "Error uploading blog"⟩, r.2)

/-- `POST /api/blogs` of the ESM variant (`src/unnamed/part_001` lines
111-127).  The handler has no try/catch and no file check: with no file part,
`req.file.path` throws and the rejection is unhandled, so no response is ever
sent (modelled as `Except.error`). -/
def postBlogsEsm (fp : FilePart) (blog_title blog_description : Option String)
    (db : DB) : Except Unit (Response × DB) :=
  match fp with
  | .failed => .ok (⟨500, .defaultErrorPage⟩, db)
  | .missing => .error ()
  | .uploaded path =>
    let r := getNextSequenceValue "blog_id" db
    let blog : Blog := ⟨r.1, blog_title, blog_description, path⟩
    .ok (⟨201, .blogRec blog⟩, { r.2 with blogs := r.2.blogs ++ [blog] })

/-- `POST /api/events` (`src/server.js` lines 174-196).  Middleware upload
first; the handler then checks `event_date`, then `req.file`; on success the
event is saved and answered 201; a failing save is caught and answered
500. -/
def postEvents (fp : FilePart) (event_date : Option String) (saveOk : Bool)
    (db : DB) : Response × DB :=
  match fp, event_date with
  | .failed, _ => (⟨500, .defaultErrorPage⟩, db)
  | _, none => (⟨400, .msg "Event date is required"⟩, db)
  | .missing, some _ => (⟨400, .msg "Event image is required"⟩, db)
  | .uploaded path, some d =>
    if saveOk then
      let e : Event := ⟨d, path⟩
      (⟨201, .eventRec e⟩, { db with events := db.events ++ [e] })
    else
      (⟨500, .err "Error uploading event"⟩, db)

/-- `POST /api/music` (`src/unnamed/part_000` lines 193-211).  Middleware
upload first; the handler checks only `req.file`.  The schema marks `title`,
`purchaseLink` and `streamLink` as required, so `save()` throws a validation
error when any of them is absent; that (like any save failure) is caught and
answered 500. -/
def postMusic (fp : FilePart) (title purchaseLink streamLink : Option String)
    (saveOk : Bool) (db : DB) : Response × DB :=
  match fp with
  | .failed => (⟨500, .defaultErrorPage⟩, db)
  | .missing => (⟨400, .msg "No image uploaded"⟩, db)
  | .uploaded path =>
    match title, purchaseLink, streamLink with
    | some t, some p, some s =>
      if saveOk then
        let song : Song := ⟨path, t, p, s⟩
        (⟨201, .songRec "Song added successfully" song⟩,
          { db with songs := db.songs ++ [song] })
      else
        (⟨500, .err "Error uploading song"⟩, db)
    | _, _, _ => (⟨500, .err "Error uploading song"⟩, db)

/-- A schedule of concurrent `getNextSequenceValue` callers.  Each call is a
single atomic `findOneAndUpdate`, so an interleaved execution of the callers
is exactly a serial execution in some order; a schedule lists the caller ids
in the order their atomic steps commit.  The result pairs each caller with
the value it received. -/
def execSchedule (name : String) (db : DB) : List Nat → List (Nat × Int) × DB
  | [] => ([], db)
  | c :: cs =>
    let r := getNextSequenceValue name db
    let rest := execSchedule name r.2 cs
    ((c, r.1) :: rest.1, rest.2)

/-- `n` sequential `getNextSequenceValue` calls for one name. -/
def iterateNext (name : String) : Nat → DB → DB
  | 0, db => db
  | n + 1, db => iterateNext name n (getNextSequenceValue name db).2

/-- One operation of the system, for stating store-wide invariants. -/
inductive Op where
  | nextVal (name : String)
  | carousel (file : Option Unit) (link : Option String)
      (uploadRes : Except Unit String)
  | blogs (fp : FilePart) (t d : Option String) (saveOk : Bool)
  | blogsEsm (fp : FilePart) (t d : Option String)
  | events (fp : FilePart) (date : Option String) (saveOk : Bool)
  | music (fp : FilePart) (t p s : Option String) (saveOk : Bool)
  | getBlog (param : String)

/-- The effect of one operation on the document store. -/
def applyOp (op : Op) (db : DB) : DB :=
  match op with
  | .nextVal name => (getNextSequenceValue name db).2
  | .carousel f l u => (postCarousel f l u db).2
  | .blogs fp t d s => (postBlogs fp t d s db).2
  | .blogsEsm fp t d =>
    match postBlogsEsm fp t d db with
    | .ok r => r.2
    | .error _ => db
  | .events fp dt s => (postEvents fp dt s db).2
  | .music fp t p s sv => (postMusic fp t p s sv db).2
  | .getBlog _ => db

/-! ### Basic lemmas about the allocator -/

theorem getNext_fst (name : String) (db : DB) :
    (getNextSequenceValue name db).1 = counterVal db name + 1 := rfl

theorem getNext_counters (name n : String) (db : DB) :
    (getNextSequenceValue name db).2.counters n =
      if n = name then some (counterVal db name + 1) else db.counters n := rfl

theorem counterVal_getNext (name n : String) (db : DB) :
    counterVal (getNextSequenceValue name db).2 n =
      if n = name then counterVal db name + 1 else counterVal db n := by
  unfold counterVal
  rw [getNext_counters]
  split <;> rfl

theorem counterVal_getNext_self (name : String) (db : DB) :
    counterVal (getNextSequenceValue name db).2 name = counterVal db name + 1 := by
  rw [counterVal_getNext]
  simp

/-! ### Lemmas about schedules of concurrent atomic calls -/

theorem execSchedule_fst (name : String) (cs : List Nat) :
    ∀ db : DB, ((execSchedule name db cs).1.map Prod.fst) = cs := by
  induction cs with
  | nil => intro db; rfl
  | cons c cs ih =>
    intro db
    simp only [execSchedule, List.map_cons, List.cons.injEq, true_and]
    exact ih _

theorem execSchedule_snd (name : String) (cs : List Nat) :
    ∀ db : DB, ((execSchedule name db cs).1.map Prod.snd) =
      (List.range cs.length).map (fun i : Nat => counterVal db name + 1 + (i : Int)) := by
  induction cs with
  | nil => intro db; rfl
  | cons c cs ih =>
    intro db
    have h1 : (execSchedule name db (c :: cs)).1 =
        (c, (getNextSequenceValue name db).1) ::
          (execSchedule name (getNextSequenceValue name db).2 cs).1 := rfl
    rw [h1, List.map_cons, ih, getNext_fst, counterVal_getNext_self,
      List.length_cons, List.range_succ_eq_map, List.map_cons, List.map_map]
    congr 1
    · simp
    · refine List.map_congr_left (fun a _ => ?_)
      simp only [Function.comp_apply]
      push_cast
      ring

theorem execSchedule_snd_nodup (name : String) (cs : List Nat) (db : DB) :
    ((execSchedule name db cs).1.map Prod.snd).Nodup := by
  rw [execSchedule_snd]
  refine List.Nodup.map ?_ (List.nodup_range cs.length)
  intro a b hab
  simp only at hab
  omega

theorem iterateNext_counters_ne (a b : String) (hab : a ≠ b) :
    ∀ (n : Nat) (db : DB), (iterateNext a n db).counters b = db.counters b := by
  intro n
  induction n with
  | zero => intro db; rfl
  | succ n ih =>
    intro db
    rw [iterateNext, ih, getNext_counters, if_neg (Ne.symm hab)]

/-! ### Claim theorems -/

/-- C1: for any schedule of distinct concurrent callers of
`getNextSequenceValue` on counter `name` (each call one atomic
`findOneAndUpdate` step), the values returned, in commit order, are exactly
`k+1, ..., k+n` where `k` is the prior stored value and `n` the number of
callers; each caller receives exactly one value, the values have no
duplicates, and against a fresh counter they are exactly `1, ..., n`. -/
theorem c1_concurrent_next_values (name : String) (db : DB) (cs : List Nat)
    (h : cs.Nodup) :
    ((execSchedule name db cs).1.map Prod.snd =
        (List.range cs.length).map
          (fun i : Nat => counterVal db name + 1 + (i : Int)))
    ∧ ((execSchedule name db cs).1.map Prod.fst = cs)
    ∧ ((execSchedule name db cs).1.map Prod.fst).Nodup
    ∧ ((execSchedule name db cs).1.map Prod.snd).Nodup
    ∧ (db.counters name = none →
        (execSchedule name db cs).1.map Prod.snd =
          (List.range cs.length).map (fun i : Nat => ((i : Int) + 1))) := by
  refine ⟨execSchedule_snd name cs db, execSchedule_fst name cs db, ?_,
    execSchedule_snd_nodup name cs db, ?_⟩
  · rw [execSchedule_fst]
    exact h
  · intro h0
    have hk : counterVal db name = 0 := by simp [counterVal, h0]
    rw [execSchedule_snd, hk]
    refine List.map_congr_left (fun a _ => ?_)
    ring

/-- Witness for C1 at a concrete schedule of three callers on a fresh
store. -/
theorem c1_witness :
    ((execSchedule "x" emptyDB [0, 1, 2]).1.map Prod.snd =
        (List.range ([0, 1, 2] : List Nat).length).map
          (fun i : Nat => counterVal emptyDB "x" + 1 + (i : Int)))
    ∧ ((execSchedule "x" emptyDB [0, 1, 2]).1.map Prod.fst = [0, 1, 2])
    ∧ ((execSchedule "x" emptyDB [0, 1, 2]).1.map Prod.fst).Nodup
    ∧ ((execSchedule "x" emptyDB [0, 1, 2]).1.map Prod.snd).Nodup
    ∧ (emptyDB.counters "x" = none →
        (execSchedule "x" emptyDB [0, 1, 2]).1.map Prod.snd =
          (List.range ([0, 1, 2] : List Nat).length).map
            (fun i : Nat => ((i : Int) + 1))) :=
  c1_concurrent_next_values "x" emptyDB [0, 1, 2] (by decide)

/-- C2: against an absent counter document (absence read as 0),
`getNextSequenceValue` returns 1 and creates the document with stored value 1
in the same atomic step; a second sequential call returns 2; in general every
sequential call returns the prior stored value plus one and persists that new
value. -/
theorem c2_sequential_allocation (name : String) (db : DB)
    (h : db.counters name = none) :
    (getNextSequenceValue name db).1 = 1
    ∧ (getNextSequenceValue name db).2.counters name = some 1
    ∧ (getNextSequenceValue name (getNextSequenceValue name db).2).1 = 2
    ∧ (∀ db2 : DB, (getNextSequenceValue name db2).1 = counterVal db2 name + 1
        ∧ (getNextSequenceValue name db2).2.counters name =
            some (counterVal db2 name + 1)) := by
  have h0 : counterVal db name = 0 := by simp [counterVal, h]
  refine ⟨?_, ?_, ?_, fun db2 => ⟨getNext_fst name db2, ?_⟩⟩
  · rw [getNext_fst, h0]
    norm_num
  · rw [getNext_counters, if_pos rfl, h0]
    norm_num
  · rw [getNext_fst, counterVal_getNext_self, h0]
    norm_num
  · rw [getNext_counters, if_pos rfl]

/-- Witness for C2 on the fresh store and the `"blog_id"` counter. -/
theorem c2_witness :
    (getNextSequenceValue "blog_id" emptyDB).1 = 1
    ∧ (getNextSequenceValue "blog_id" emptyDB).2.counters "blog_id" = some 1
    ∧ (getNextSequenceValue "blog_id"
        (getNextSequenceValue "blog_id" emptyDB).2).1 = 2
    ∧ (∀ db2 : DB,
        (getNextSequenceValue "blog_id" db2).1 = counterVal db2 "blog_id" + 1
        ∧ (getNextSequenceValue "blog_id" db2).2.counters "blog_id" =
            some (counterVal db2 "blog_id" + 1)) :=
  c2_sequential_allocation "blog_id" emptyDB rfl

/-- C5: counters with distinct names are independent: any number of
`getNextSequenceValue` calls for name `a` leaves the stored counter document
for a different name `b`, and the next value returned for `b`, unchanged. -/
theorem c5_independent_counters (a b : String) (h : a ≠ b) (n : Nat)
    (db : DB) :
    (iterateNext a n db).counters b = db.counters b
    ∧ (getNextSequenceValue b (iterateNext a n db)).1 =
        (getNextSequenceValue b db).1 := by
  have hc := iterateNext_counters_ne a b h n db
  refine ⟨hc, ?_⟩
  rw [getNext_fst, getNext_fst]
  unfold counterVal
  rw [hc]

/-- Witness for C5: five allocations for `"a"` do not disturb `"b"`. -/
theorem c5_witness :
    (iterateNext "a" 5 emptyDB).counters "b" = emptyDB.counters "b"
    ∧ (getNextSequenceValue "b" (iterateNext "a" 5 emptyDB)).1 =
        (getNextSequenceValue "b" emptyDB).1 :=
  c5_independent_counters "a" "b" (by decide) 5 emptyDB

/-- C3: with the upload succeeding at url `"https://x/y.jpg"`, title `"T"`,
description `"D"` and a fresh `blog_id` counter, the blog create operation
persists the record with `blog_id = 1` and those fields, and answers with
exactly that record and status 201. -/
theorem c3_create_blog_success (db : DB) (h : db.counters "blog_id" = none) :
    (postBlogs (.uploaded "https://x/y.jpg") (some "T") (some "D") true db).1 =
      ⟨201, .blogRec ⟨1, some "T", some "D", "https://x/y.jpg"⟩⟩
    ∧ (postBlogs (.uploaded "https://x/y.jpg") (some "T") (some "D") true
        db).2.blogs =
        db.blogs ++ [⟨1, some "T", some "D", "https://x/y.jpg"⟩] := by
  have h0 : counterVal db "blog_id" = 0 := by simp [counterVal, h]
  have h1 : (getNextSequenceValue "blog_id" db).1 = 1 := by
    rw [getNext_fst, h0]
    norm_num
  constructor
  · show (⟨201, .blogRec ⟨(getNextSequenceValue "blog_id" db).1, some "T",
      some "D", "https://x/y.jpg"⟩⟩ : Response) = _
    rw [h1]
  · show (getNextSequenceValue "blog_id" db).2.blogs ++
      [⟨(getNextSequenceValue "blog_id" db).1, some "T", some "D",
        "https://x/y.jpg"⟩] = _
    rw [h1]
    rfl

/-- Witness for C3 on the fresh store. -/
theorem c3_witness :
    (postBlogs (.uploaded "https://x/y.jpg") (some "T") (some "D") true
        emptyDB).1 =
      ⟨201, .blogRec ⟨1, some "T", some "D", "https://x/y.jpg"⟩⟩
    ∧ (postBlogs (.uploaded "https://x/y.jpg") (some "T") (some "D") true
        emptyDB).2.blogs =
        emptyDB.blogs ++ [⟨1, some "T", some "D", "https://x/y.jpg"⟩] :=
  c3_create_blog_success emptyDB rfl

/-- C4: when the Blob Store upload fails, every create operation answers 5xx
and leaves the store untouched: no record is persisted and no sequence value
is consumed.  For the blog/event/music routes the failing multer middleware
means the handler never runs (Express default error handler, 500); for the
carousel route the failing callback answers 500 directly. -/
theorem c4_upload_failure_no_effects :
    (∀ (t d : Option String) (saveOk : Bool) (db : DB),
        postBlogs .failed t d saveOk db = (⟨500, .defaultErrorPage⟩, db))
    ∧ (∀ (link : Option String) (db : DB),
        postCarousel (some ()) link (.error ()) db =
          (⟨500, .msg "Upload failed"⟩, db))
    ∧ (∀ (date : Option String) (saveOk : Bool) (db : DB),
        postEvents .failed date saveOk db = (⟨500, .defaultErrorPage⟩, db))
    ∧ (∀ (t p s : Option String) (saveOk : Bool) (db : DB),
        postMusic .failed t p s saveOk db = (⟨500, .defaultErrorPage⟩, db))
    ∧ (∀ (t d : Option String) (db : DB),
        postBlogsEsm .failed t d db = .ok (⟨500, .defaultErrorPage⟩, db)) :=
  ⟨fun _ _ _ _ => rfl, fun _ _ => rfl,
    fun date _ _ => by cases date <;> rfl,
    fun _ _ _ _ _ => rfl, fun _ _ _ => rfl⟩

theorem counterVal_getNext_le (name n : String) (db : DB) :
    counterVal db n ≤ counterVal (getNextSequenceValue name db).2 n := by
  rw [counterVal_getNext]
  split
  · next hn =>
    rw [hn]
    omega
  · exact le_refl _

/-- C8: the stored value of every counter is monotonically non-decreasing
across every operation of the system, and once the increment of a blog
creation has committed it is never rolled back: even when the subsequent
`save` fails, the `blog_id` counter keeps the incremented value (the
allocated value is permanently consumed). -/
theorem c8_counter_monotone :
    (∀ (op : Op) (db : DB) (name : String),
        counterVal db name ≤ counterVal (applyOp op db) name)
    ∧ (∀ (path : String) (t d : Option String) (db : DB),
        counterVal (postBlogs (.uploaded path) t d false db).2 "blog_id" =
          counterVal db "blog_id" + 1) := by
  constructor
  · intro op db name
    cases op with
    | nextVal nm => exact counterVal_getNext_le nm name db
    | carousel f l u =>
      cases f with
      | none => exact le_refl _
      | some uu =>
        cases u with
        | error e => exact le_refl _
        | ok url => exact le_refl _
    | blogs fp t d s =>
      cases fp with
      | failed => exact le_refl _
      | missing => exact le_refl _
      | uploaded path =>
        cases s with
        | true => exact counterVal_getNext_le "blog_id" name db
        | false => exact counterVal_getNext_le "blog_id" name db
    | blogsEsm fp t d =>
      cases fp with
      | failed => exact le_refl _
      | missing => exact le_refl _
      | uploaded path => exact counterVal_getNext_le "blog_id" name db
    | events fp dt s =>
      cases fp <;> cases dt <;> cases s <;> exact le_refl _
    | music fp t p s sv =>
      cases fp with
      | failed => exact le_refl _
      | missing => exact le_refl _
      | uploaded path =>
        cases t <;> cases p <;> cases s <;> cases sv <;> exact le_refl _
    | getBlog param => exact le_refl _
  · intro path t d db
    exact counterVal_getNext_self "blog_id" db

/-- C6 counterexample: a music-creation request with the file part uploaded
but the required `title` field absent is answered 500 — not a 4xx status —
because the handler never validates the text fields and the schema's
required-field check only fires inside `save()`, whose error is caught and
answered 500.  No record is persisted. -/
theorem c6_counterexample :
    ((postMusic (.uploaded "https://u") none (some "p") (some "s") true
        emptyDB).1.status = 500)
    ∧ ¬(400 ≤ (postMusic (.uploaded "https://u") none (some "p") (some "s")
          true emptyDB).1.status
        ∧ (postMusic (.uploaded "https://u") none (some "p") (some "s") true
            emptyDB).1.status < 500)
    ∧ (postMusic (.uploaded "https://u") none (some "p") (some "s") true
        emptyDB).2.songs = [] := by decide

/-- C6 amended: a request missing the file part is answered 400 with a JSON
message by every POST handler that checks for it (carousel, blogs, events,
music), with no record persisted and no sequence value consumed; the events
route likewise answers 400 when the date field is missing.  However a
request to `/api/music` with the file present but a required text field
missing is answered 500, not 4xx (validation only fails at `save()`), and
the ESM variant's blog route sends no response at all when the file part is
missing (its handler throws with no try/catch).  Uploads already performed
by the multer middleware before validation are not undone. -/
theorem c6_amended_validation :
    (∀ (link : Option String) (u : Except Unit String) (db : DB),
        postCarousel none link u db = (⟨400, .msg "No file uploaded"⟩, db))
    ∧ (∀ (t d : Option String) (saveOk : Bool) (db : DB),
        postBlogs .missing t d saveOk db =
          (⟨400, .msg "No image uploaded"⟩, db))
    ∧ (∀ (path : String) (saveOk : Bool) (db : DB),
        postEvents (.uploaded path) none saveOk db =
          (⟨400, .msg "Event date is required"⟩, db))
    ∧ (∀ (date : String) (saveOk : Bool) (db : DB),
        postEvents .missing (some date) saveOk db =
          (⟨400, .msg "Event image is required"⟩, db))
    ∧ (∀ (t p s : Option String) (saveOk : Bool) (db : DB),
        postMusic .missing t p s saveOk db =
          (⟨400, .msg "No image uploaded"⟩, db))
    ∧ (∀ (path : String) (p s : Option String) (db : DB),
        postMusic (.uploaded path) none p s true db =
          (⟨500, .err "Error uploading song"⟩, db))
    ∧ (∀ (t d : Option String) (db : DB),
        postBlogsEsm .missing t d db = .error ()) :=
  ⟨fun _ _ _ => rfl, fun _ _ _ _ => rfl, fun _ _ _ => rfl, fun _ _ _ => rfl,
    fun _ _ _ _ _ => rfl,
    fun _ p s _ => by cases p <;> cases s <;> rfl,
    fun _ _ _ => rfl⟩

/-- C9 counterexample: a fully successful carousel creation (file present,
upload succeeded, record saved) is answered with status 200, not 201: the
handler ends in `res.json(image)` with no explicit status. -/
theorem c9_counterexample :
    (postCarousel (some ()) (some "https://l") (.ok "https://u")
        emptyDB).1.status = 200
    ∧ (postCarousel (some ()) (some "https://l") (.ok "https://u")
        emptyDB).1.status ≠ 201
    ∧ (postCarousel (some ()) (some "https://l") (.ok "https://u")
        emptyDB).2.images = [⟨"https://u", some "https://l"⟩] := by decide

/-- C9 amended: a successful POST answers with the created record as JSON
and status 201 on the blog, event and blog-ESM routes, and with a
message-and-record wrapper and status 201 on the music route; the carousel
route answers with the created record but status 200 (`res.json` without an
explicit status). -/
theorem c9_amended_success_status :
    (∀ (path : String) (t d : Option String) (db : DB),
        (postBlogs (.uploaded path) t d true db).1 =
          ⟨201, .blogRec ⟨counterVal db "blog_id" + 1, t, d, path⟩⟩)
    ∧ (∀ (path date : String) (db : DB),
        (postEvents (.uploaded path) (some date) true db).1 =
          ⟨201, .eventRec ⟨date, path⟩⟩)
    ∧ (∀ (path t p s : String) (db : DB),
        (postMusic (.uploaded path) (some t) (some p) (some s) true db).1 =
          ⟨201, .songRec "Song added successfully" ⟨path, t, p, s⟩⟩)
    ∧ (∀ (path : String) (t d : Option String) (db : DB),
        (postBlogsEsm (.uploaded path) t d db).map (fun r => r.1) =
          .ok ⟨201, .blogRec ⟨counterVal db "blog_id" + 1, t, d, path⟩⟩)
    ∧ (∀ (link : Option String) (url : String) (db : DB),
        (postCarousel (some ()) link (.ok url) db).1 =
          ⟨200, .imageRec ⟨url, link⟩⟩) :=
  ⟨fun _ _ _ _ => rfl, fun _ _ _ => rfl, fun _ _ _ _ _ => rfl,
    fun _ _ _ _ => rfl, fun _ _ _ => rfl⟩

end ProfileServer
